import Mathlib

/-!
Verification of the transaction-ledger core of the cash tracker
(`app.py`: SQLite-backed CLI; `web.py`: Flask front end sharing the
same table).

Shallow embedding conventions:
* The SQLite table `transactions` is a `List Txn`; the `id TEXT PRIMARY
  KEY` column keeps ids unique, so `INSERT OR REPLACE` removes any row
  with the same id and `INSERT OR IGNORE` inserts only when the id is
  absent (and when the `CHECK(direction IN ('income','expense'))`
  constraint holds, since `OR IGNORE` silently drops rows violating it).
* Python `REAL` amounts are modelled as `ℚ` (exact arithmetic).
* Python's `x or y` on strings treats both `None` and `""` as falsy;
  optional text fields read from `DictReader`/`request.form` are modelled
  as `String` where `""` stands for both a missing key and an empty cell,
  and `orDefault`/`orNone` embed the `or` idiom.
* A CSV amount cell is an `AmountCell`: `empty` (missing key or empty
  string, so `float(r.get("amount") or 0)` yields `0.0`), `num q` (the
  string parses to the float `q`), or `invalid` (a `ValueError` in
  `float`).  Floats round-trip exactly through `str`, so a cell written
  by the exporter for amount `q` re-parses to `num q`.
* `uuid.uuid4()` and `datetime.now().isoformat()` are nondeterministic
  inputs, passed in as explicit `freshId` / `now` parameters (a function
  `Nat → String` for the per-row uuids of the importer).
-/

/-- One row of the `transactions` table (schema `SQL_INIT` in `app.py`):
`id, date, amount, direction` are `NOT NULL`; `category, account,
description, tags` are nullable, `none` modelling SQL `NULL`. -/
structure Txn where
  id : String
  date : String
  amount : ℚ
  direction : String
  category : Option String
  account : Option String
  descr : Option String
  tags : Option String
deriving Repr, DecidableEq

/-- The `transactions` table contents. -/
abbrev Store := List Txn

/-- Python's `s or d` for strings (both `None` and `""` are falsy). -/
def orDefault (s d : String) : String := if s = "" then d else s

/-- Python's `s or None`: empty (or missing) text becomes SQL `NULL`. -/
def orNone (s : String) : Option String := if s = "" then none else some s

/-- The schema constraint `CHECK(direction IN ('income','expense'))`. -/
def isValidDirection (d : String) : Bool := d = "income" || d = "expense"

/-- Lookup by primary key. -/
def lookupId (db : Store) (i : String) : Option Txn := db.find? (fun r => r.id = i)

/-- `INSERT OR REPLACE`: the row with the conflicting id (if any) is
deleted and the new row inserted. -/
def upsert (db : Store) (t : Txn) : Store := t :: db.filter (fun r => r.id ≠ t.id)

/-- `add_transaction_db` (`app.py` lines 53-62): defaults the id to a
fresh uuid and the date to now when falsy, maps empty optional text to
`NULL`, and runs `INSERT OR REPLACE`.  A direction violating the table's
`CHECK` constraint raises `IntegrityError` (modelled as `none`); the CLI
only ever passes `income` or `expense` here. -/
def add_transaction_db (db : Store) (amount : ℚ)
    (direction category account descr tags date tid freshId now : String) :
    Option Store :=
  let tid := orDefault tid freshId
  let date := orDefault date now
  if isValidDirection direction then
    some (upsert db ⟨tid, date, amount, direction,
      orNone category, orNone account, orNone descr, orNone tags⟩)
  else
    none

/-- `read_transactions_db` (`app.py` lines 65-70): `SELECT * FROM
transactions ORDER BY date DESC` — all rows, sorted by the `date` string
descending (ties in an unspecified order; any sort realises the query,
and only the underlying multiset matters below). -/
def read_transactions_db (db : Store) : List Txn :=
  db.insertionSort (fun a b => b.date ≤ a.date)

/-- The single `for` loop of `show_balance` / `monthly_report`: add each
amount to the income accumulator when `direction == "income"`, else to
the expense accumulator.  (`float(r["amount"] or 0)` is the identity on
the stored `REAL`: `0.0` is falsy but `float(0) = 0.0`.) -/
def balanceFold (rows : List Txn) : ℚ × ℚ :=
  rows.foldl
    (fun p r => if r.direction = "income" then (p.1 + r.amount, p.2) else (p.1, p.2 + r.amount))
    (0, 0)

/-- `show_balance` (`app.py` lines 85-99): returns
(income total, expense total, balance = income - expense). -/
def show_balance (db : Store) : ℚ × ℚ × ℚ :=
  let p := balanceFold db
  (p.1, p.2, p.1 - p.2)

/-- The SQL filter `date LIKE '<month>%'` of `monthly_report`.  For a
pattern that is a `YYYY-MM` month (digits and `-`: no `%`, `_`, or
letters, so `LIKE`'s ASCII case-folding is moot) this is exactly a
prefix test on the `date` string. -/
def dateMatches (month : String) (r : Txn) : Bool := month.data.isPrefixOf r.date.data

/-- `monthly_report` (`app.py` lines 102-117): filter rows whose date
starts with the month, then the same income/expense fold; returns
(income, expense, net = income - expense). -/
def monthly_report (db : Store) (month : String) : ℚ × ℚ × ℚ :=
  let p := balanceFold (db.filter (dateMatches month))
  (p.1, p.2, p.1 - p.2)

/-- A month argument of the documented `YYYY-MM` shape: four digits,
a dash, two digits. -/
def isMonthStr (m : String) : Bool :=
  match m.data with
  | [a, b, c, d, e, f, g] =>
      a.isDigit && b.isDigit && c.isDigit && d.isDigit && e = '-' && f.isDigit && g.isDigit
  | _ => false

/-- A CSV `amount` cell as seen through `float(r.get("amount") or 0)`:
missing/empty → `0.0`; a parsing string → its value; otherwise a
`ValueError` (the row is logged and skipped). -/
inductive AmountCell where
  | empty : AmountCell
  | num : ℚ → AmountCell
  | invalid : AmountCell
deriving Repr, DecidableEq

/-- Does `float(cell or 0)` succeed? -/
def amountParses (c : AmountCell) : Bool :=
  match c with
  | .invalid => false
  | _ => true

/-- The parsed value when it succeeds (`empty` → `0`). -/
def amountValue (c : AmountCell) : ℚ :=
  match c with
  | .num q => q
  | _ => 0

/-- One CSV row as produced by `csv.DictReader`: every text field is a
`String`, with `""` standing for a missing key or an empty cell (the two
are indistinguishable through `r.get(k) or d`). -/
structure CsvRow where
  id : String
  date : String
  amount : AmountCell
  direction : String
  category : String
  account : String
  descr : String
  tags : String
deriving Repr, DecidableEq

/-- `export_csv` (`app.py` lines 120-129): serialise
`read_transactions_db()` in the `FIELDNAMES` column order, rendering
`NULL` optionals as `""`.  The amount float re-parses exactly. -/
def exportRow (r : Txn) : CsvRow :=
  ⟨r.id, r.date, .num r.amount, r.direction,
    r.category.getD "", r.account.getD "", r.descr.getD "", r.tags.getD ""⟩

def export_csv (db : Store) : List CsvRow :=
  (read_transactions_db db).map exportRow

/-- One iteration of the `migrate_from_csv` loop (`app.py` lines
140-158) on row `row` with destination `db`: an unparseable amount skips
the row (count 0); otherwise the id/date defaults are filled, a missing
direction is inferred from the sign of the parsed amount
(`amount >= 0` → income, else expense), and `INSERT OR IGNORE` inserts
unless the id already exists or the direction violates the `CHECK`
constraint; the counter is incremented either way (count 1). -/
def inferDir (row : CsvRow) : String :=
  orDefault row.direction (if 0 ≤ amountValue row.amount then "income" else "expense")

/-- The row the importer hands to `INSERT OR IGNORE` (defaults filled,
direction inferred when missing, amount exactly as parsed). -/
def migrateTxn (row : CsvRow) (freshId now : String) : Txn :=
  ⟨orDefault row.id freshId, orDefault row.date now, amountValue row.amount, inferDir row,
    orNone row.category, orNone row.account, orNone row.descr, orNone row.tags⟩

def migrateRow (db : Store) (row : CsvRow) (freshId now : String) : Store × Nat :=
  if amountParses row.amount then
    (if (lookupId db (orDefault row.id freshId)).isSome || ¬ isValidDirection (inferDir row)
     then db
     else migrateTxn row freshId now :: db,
     1)
  else
    (db, 0)

/-- The loop of `migrate_from_csv` over the remaining rows, with `k` the
index of the next row (feeding the per-row fresh uuid supply). -/
def migrateLoop (rows : List CsvRow) (db : Store) (fresh : Nat → String)
    (now : String) (k : Nat) : Store × Nat :=
  match rows with
  | [] => (db, 0)
  | row :: rest =>
      let p := migrateRow db row (fresh k) now
      let q := migrateLoop rest p.1 fresh now (k + 1)
      (q.1, p.2 + q.2)

/-- `migrate_from_csv` (`app.py` lines 132-159): stream the source rows
into the destination store, returning the final store and the reported
`imported` count. -/
def migrate_from_csv (rows : List CsvRow) (db : Store) (fresh : Nat → String)
    (now : String) : Store × Nat :=
  migrateLoop rows db fresh now 0

/-- Outcome of a POST to the web `add` route (`web.py` lines 68-94). -/
inductive WebResult where
  | badAmount : Store → WebResult
  | saved : Store → WebResult
  | storageError : Store → WebResult
deriving Repr, DecidableEq

/-- The `amount` form field through
`float(request.form.get("amount", "0").strip())`: a missing field
defaults to the string `"0"` (value `0`), a parseable field gives its
value, anything else (including the empty string) raises `ValueError`
and the request is redirected with a flash. -/
inductive FormAmount where
  | missing : FormAmount
  | num : ℚ → FormAmount
  | invalid : FormAmount
deriving Repr, DecidableEq

def formAmountValue (a : FormAmount) : ℚ :=
  match a with
  | .num q => q
  | _ => 0

/-- The web `add` POST handler (`web.py` lines 68-94): reject an
unparseable amount; default a falsy direction to `"expense"`; map empty
optional fields to `NULL`; a falsy date becomes now, otherwise it is
stripped; a falsy id becomes a fresh uuid; then `INSERT OR REPLACE`
(a `CHECK` violation aborts the statement, surfacing as an error). -/
def web_add (db : Store) (amt : FormAmount)
    (direction category account descr tags date tid freshId now : String) :
    WebResult :=
  match amt with
  | .invalid => .badAmount db
  | _ =>
    let amount := formAmountValue amt
    let dir := orDefault direction "expense"
    let date := if date = "" then now else date.trim
    let tid := orDefault tid freshId
    if isValidDirection dir then
      .saved (upsert db ⟨tid, date, amount, dir,
        orNone category, orNone account, orNone descr, orNone tags⟩)
    else
      .storageError db

/-- Sum of amounts of a list of rows — the `Σ amount` of the spec. -/
def sumAmounts (rows : List Txn) : ℚ := (rows.map Txn.amount).sum

/-- All stored amounts are non-negative — the invariant of §3. -/
def allNonneg (db : Store) : Prop := ∀ r ∈ db, 0 ≤ r.amount

/-! ## Helper lemmas -/

theorem mem_read_transactions (db : Store) (t : Txn) :
    t ∈ read_transactions_db db ↔ t ∈ db := by
  unfold read_transactions_db
  exact List.mem_insertionSort _

theorem balanceFold_aux (rows : List Txn) (p : ℚ × ℚ) :
    rows.foldl
      (fun p r => if r.direction = "income" then (p.1 + r.amount, p.2) else (p.1, p.2 + r.amount))
      p =
    (p.1 + sumAmounts (rows.filter (fun r => r.direction = "income")),
     p.2 + sumAmounts (rows.filter (fun r => ¬ r.direction = "income"))) := by
  induction rows generalizing p with
  | nil => simp [sumAmounts]
  | cons r rest ih =>
      by_cases h : r.direction = "income" <;>
        simp [h, ih, sumAmounts] <;> ring_nf

theorem balanceFold_eq (rows : List Txn) :
    balanceFold rows =
      (sumAmounts (rows.filter (fun r => r.direction = "income")),
       sumAmounts (rows.filter (fun r => ¬ r.direction = "income"))) := by
  unfold balanceFold
  rw [balanceFold_aux]
  simp

theorem filter_not_income (db : Store)
    (hvalid : ∀ r ∈ db, isValidDirection r.direction = true) :
    db.filter (fun r => ¬ r.direction = "income") =
      db.filter (fun r => r.direction = "expense") := by
  apply List.filter_congr
  intro r hr
  have h := hvalid r hr
  simp only [isValidDirection, Bool.or_eq_true, decide_eq_true_eq] at h
  rcases h with h | h <;> simp [h]

/-! ## C1: put / list round-trip -/

/-- C1: for every valid record (a direction the schema admits and
non-empty id and date, so the uuid/now defaults do not fire),
`add_transaction_db` followed by `read_transactions_db` yields a record
set containing a record with that id whose fields all equal the input
record's fields (optional fields in their stored `NULL`-normal form). -/
theorem put_then_list_roundtrip (db : Store) (amount : ℚ)
    (direction category account descr tags date tid freshId now : String)
    (hdir : isValidDirection direction = true) (htid : tid ≠ "") (hdate : date ≠ "") :
    ∃ db', add_transaction_db db amount direction category account descr tags date tid freshId now
        = some db' ∧
      (⟨tid, date, amount, direction,
        orNone category, orNone account, orNone descr, orNone tags⟩ : Txn)
        ∈ read_transactions_db db' := by
  have h1 : orDefault tid freshId = tid := by simp [orDefault, htid]
  have h2 : orDefault date now = date := by simp [orDefault, hdate]
  refine ⟨upsert db ⟨tid, date, amount, direction,
    orNone category, orNone account, orNone descr, orNone tags⟩, ?_, ?_⟩
  · simp [add_transaction_db, hdir, h1, h2]
  · rw [mem_read_transactions]
    exact List.mem_cons_self _ _

/-- C1 witness at a concrete record. -/
theorem put_then_list_roundtrip_witness :
    ∃ db', add_transaction_db [] 100 "income" "Salary" "" "" "" "2026-01-05" "t1" "u1" "n1"
        = some db' ∧
      (⟨"t1", "2026-01-05", 100, "income", some "Salary", none, none, none⟩ : Txn)
        ∈ read_transactions_db db' :=
  put_then_list_roundtrip [] 100 "income" "Salary" "" "" "" "2026-01-05" "t1" "u1" "n1"
    (by decide) (by decide) (by decide)

/-! ## C2: balance totals -/

/-- C2: on any record set the schema admits, `show_balance` returns
income = Σ amounts over income records, expense = Σ amounts over expense
records, and balance = income − expense; and on the record set
{100 income 2026-01-05, 40 expense 2026-01-10, 20 expense 2026-02-01} it
reports income 100, expense 60, balance 40. -/
theorem show_balance_spec (db : Store)
    (hvalid : ∀ r ∈ db, isValidDirection r.direction = true) :
    (show_balance db).1 = sumAmounts (db.filter (fun r => r.direction = "income")) ∧
    (show_balance db).2.1 = sumAmounts (db.filter (fun r => r.direction = "expense")) ∧
    (show_balance db).2.2 = (show_balance db).1 - (show_balance db).2.1 ∧
    show_balance
      [⟨"a", "2026-01-05", 100, "income", none, none, none, none⟩,
       ⟨"b", "2026-01-10", 40, "expense", none, none, none, none⟩,
       ⟨"c", "2026-02-01", 20, "expense", none, none, none, none⟩] = (100, 60, 40) := by
  have hb := balanceFold_eq db
  refine ⟨?_, ?_, rfl, ?_⟩
  · show (balanceFold db).1 = _
    rw [hb]
  · have h2 : (show_balance db).2.1 =
        sumAmounts (db.filter (fun r => ¬ r.direction = "income")) := by
      show (balanceFold db).2 = _
      rw [hb]
    rw [h2, filter_not_income db hvalid]
  · simp [show_balance, balanceFold]
    norm_num

/-- C2 witness on the scenario record set. -/
theorem show_balance_spec_witness :
    (show_balance
      [⟨"a", "2026-01-05", 100, "income", none, none, none, none⟩,
       ⟨"b", "2026-01-10", 40, "expense", none, none, none, none⟩,
       ⟨"c", "2026-02-01", 20, "expense", none, none, none, none⟩]).1 =
      sumAmounts (([⟨"a", "2026-01-05", 100, "income", none, none, none, none⟩,
       ⟨"b", "2026-01-10", 40, "expense", none, none, none, none⟩,
       ⟨"c", "2026-02-01", 20, "expense", none, none, none, none⟩] : Store).filter
         (fun r => r.direction = "income")) :=
  (show_balance_spec _ (by decide)).1

/-! ## C3: the non-negative-amount invariant -/

theorem allNonneg_upsert (db : Store) (t : Txn)
    (h : allNonneg db) (ht : 0 ≤ t.amount) : allNonneg (upsert db t) := by
  intro r hr
  rcases List.mem_cons.mp hr with rfl | h1
  · exact ht
  · exact h r (List.mem_filter.mp h1).1

theorem allNonneg_migrateRow (db : Store) (row : CsvRow) (freshId now : String)
    (h : allNonneg db) (hrow : 0 ≤ amountValue row.amount) :
    allNonneg (migrateRow db row freshId now).1 := by
  unfold migrateRow
  split
  · split
    · exact h
    · intro r hr
      rcases List.mem_cons.mp hr with rfl | h1
      · exact hrow
      · exact h r h1
  · exact h

theorem allNonneg_migrateLoop (rows : List CsvRow) (db : Store)
    (fresh : Nat → String) (now : String) (k : Nat)
    (h : allNonneg db) (hrows : ∀ row ∈ rows, 0 ≤ amountValue row.amount) :
    allNonneg (migrateLoop rows db fresh now k).1 := by
  induction rows generalizing db k with
  | nil => exact h
  | cons row rest ih =>
      exact ih (migrateRow db row (fresh k) now).1 (k + 1)
        (allNonneg_migrateRow db row (fresh k) now h (hrows row (by simp)))
        (fun r hr => hrows r (by simp [hr]))

/-- C3 counterexample: the web `add` handler accepts a negative amount
and stores it as-is — a POST with amount `-50` and no direction is saved
with `amount = -50 < 0`, so sign is *not* carried only by `direction`. -/
theorem negative_amount_stored_cex :
    web_add [] (.num (-50)) "" "" "" "" "" "" "" "u1" "2026-01-01T00:00:00" =
      .saved [⟨"u1", "2026-01-01T00:00:00", -50, "expense", none, none, none, none⟩] ∧
    ¬ allNonneg [(⟨"u1", "2026-01-01T00:00:00", -50, "expense", none, none, none, none⟩ : Txn)] := by
  constructor
  · rfl
  · intro h
    have := h ⟨"u1", "2026-01-01T00:00:00", -50, "expense", none, none, none, none⟩ (by simp)
    norm_num at this

/-- C3 amended: no operation in scope normalizes the sign — each stores
the supplied amount unchanged — so the non-negativity invariant holds
after a CLI add, web add, or CSV import exactly when the store already
satisfied it and every supplied amount was non-negative. -/
theorem amount_nonneg_preserved :
    (∀ (db : Store) (amount : ℚ)
        (direction category account descr tags date tid freshId now : String) (db' : Store),
        allNonneg db → 0 ≤ amount →
        add_transaction_db db amount direction category account descr tags date tid freshId now
          = some db' →
        allNonneg db') ∧
    (∀ (db : Store) (amt : FormAmount)
        (direction category account descr tags date tid freshId now : String) (db' : Store),
        allNonneg db → 0 ≤ formAmountValue amt →
        web_add db amt direction category account descr tags date tid freshId now = .saved db' →
        allNonneg db') ∧
    (∀ (rows : List CsvRow) (db : Store) (fresh : Nat → String) (now : String),
        allNonneg db → (∀ row ∈ rows, 0 ≤ amountValue row.amount) →
        allNonneg (migrate_from_csv rows db fresh now).1) := by
  refine ⟨?_, ?_, ?_⟩
  · intro db amount direction category account descr tags date tid freshId now db' hnn hamt heq
    by_cases hd : isValidDirection direction = true
    · simp only [add_transaction_db, hd, if_true, Option.some.injEq] at heq
      exact heq ▸ allNonneg_upsert db _ hnn hamt
    · simp [add_transaction_db, hd] at heq
  · intro db amt direction category account descr tags date tid freshId now db' hnn hamt heq
    cases amt with
    | invalid => simp [web_add] at heq
    | missing =>
        by_cases hd : isValidDirection (orDefault direction "expense") = true
        · simp only [web_add, hd, if_true, WebResult.saved.injEq] at heq
          exact heq ▸ allNonneg_upsert db _ hnn hamt
        · simp [web_add, hd] at heq
    | num q =>
        by_cases hd : isValidDirection (orDefault direction "expense") = true
        · simp only [web_add, hd, if_true, WebResult.saved.injEq] at heq
          exact heq ▸ allNonneg_upsert db _ hnn hamt
        · simp [web_add, hd] at heq
  · intro rows db fresh now hnn hrows
    exact allNonneg_migrateLoop rows db fresh now 0 hnn hrows

/-- C3 amended, witness: a concrete non-negative web add keeps the store
non-negative. -/
theorem amount_nonneg_preserved_witness :
    allNonneg [(⟨"u1", "2026-01-01", 50, "expense", none, none, none, none⟩ : Txn)] :=
  amount_nonneg_preserved.2.1 [] (.num 50) "" "" "" "" "" "" "" "u1" "2026-01-01"
    [⟨"u1", "2026-01-01", 50, "expense", none, none, none, none⟩]
    (by intro r hr; cases hr) (by norm_num [formAmountValue]) rfl

/-! ## C4: import dedup leaves existing records untouched -/

theorem lookupId_cons (t : Txn) (db : Store) (i : String) :
    lookupId (t :: db) i = if t.id = i then some t else lookupId db i := by
  by_cases h : t.id = i <;> simp [lookupId, List.find?_cons, h]

theorem lookupId_migrateRow (db : Store) (row : CsvRow) (freshId now i : String) (r₀ : Txn)
    (h : lookupId db i = some r₀) :
    lookupId (migrateRow db row freshId now).1 i = some r₀ := by
  unfold migrateRow
  split
  · dsimp only
    split
    · exact h
    · rename_i hcond
      simp only [Bool.or_eq_true, not_or, Option.isSome_iff_exists] at hcond
      have hnone : lookupId db (orDefault row.id freshId) = none := by
        cases hh : lookupId db (orDefault row.id freshId) with
        | none => rfl
        | some t => exact absurd ⟨t, hh⟩ hcond.1
      have hne : (migrateTxn row freshId now).id ≠ i := by
        intro hi
        have hi' : orDefault row.id freshId = i := hi
        rw [hi'] at hnone
        rw [hnone] at h
        exact Option.noConfusion h
      rw [lookupId_cons, if_neg hne]
      exact h
  · exact h

theorem lookupId_migrateLoop (rows : List CsvRow) (db : Store) (fresh : Nat → String)
    (now : String) (k : Nat) (i : String) (r₀ : Txn) (h : lookupId db i = some r₀) :
    lookupId (migrateLoop rows db fresh now k).1 i = some r₀ := by
  induction rows generalizing db k with
  | nil => exact h
  | cons row rest ih =>
      exact ih (migrateRow db row (fresh k) now).1 (k + 1)
        (lookupId_migrateRow db row (fresh k) now i r₀ h)

/-- C4: for every destination store and CSV source, any record whose id
already exists in the destination keeps every field unchanged across
`migrate_from_csv` (`INSERT OR IGNORE` never replaces). -/
theorem migrate_preserves_existing (rows : List CsvRow) (db : Store)
    (fresh : Nat → String) (now i : String) (r₀ : Txn)
    (h : lookupId db i = some r₀) :
    lookupId (migrate_from_csv rows db fresh now).1 i = some r₀ :=
  lookupId_migrateLoop rows db fresh now 0 i r₀ h

/-- C4 witness: a source row re-using id `"a"` with different fields
leaves the stored record for `"a"` untouched. -/
theorem migrate_preserves_existing_witness :
    lookupId (migrate_from_csv [⟨"a", "2027-09-09", .num 999, "expense", "X", "", "", ""⟩]
        [⟨"a", "2026-01-01", 7, "income", none, none, none, none⟩] (fun _ => "u") "n").1 "a"
      = some ⟨"a", "2026-01-01", 7, "income", none, none, none, none⟩ :=
  migrate_preserves_existing [⟨"a", "2027-09-09", .num 999, "expense", "X", "", "", ""⟩]
    [⟨"a", "2026-01-01", 7, "income", none, none, none, none⟩] (fun _ => "u") "n" "a"
    ⟨"a", "2026-01-01", 7, "income", none, none, none, none⟩ rfl

/-! ## C6: sign-to-direction conversion happens only in CSV import -/

/-- C6: during CSV import a row with a missing `direction` gets its
direction inferred from the sign of the raw parsed amount (`>= 0` →
income, `< 0` → expense) and the raw amount itself is stored unchanged
(there is no magnitude-normalization step for the inference to precede);
and neither the CLI add nor the web add derives a direction from the
amount's sign: the CLI stores exactly the direction it was given and the
web handler stores the form direction (defaulted to `"expense"` when
falsy), whatever the amount. -/
theorem sign_inference_only_in_import :
    (∀ (db : Store) (row : CsvRow) (freshId now : String),
        row.direction = "" → amountParses row.amount = true →
        lookupId db (orDefault row.id freshId) = none →
        migrateRow db row freshId now = (migrateTxn row freshId now :: db, 1) ∧
        (migrateTxn row freshId now).direction =
          (if 0 ≤ amountValue row.amount then "income" else "expense") ∧
        (migrateTxn row freshId now).amount = amountValue row.amount) ∧
    (∀ (db : Store) (amount : ℚ)
        (direction category account descr tags date tid freshId now : String) (db' : Store),
        add_transaction_db db amount direction category account descr tags date tid freshId now
          = some db' →
        ∃ t : Txn, db' = upsert db t ∧ t.direction = direction ∧ t.amount = amount) ∧
    (∀ (db : Store) (amt : FormAmount)
        (direction category account descr tags date tid freshId now : String) (db' : Store),
        web_add db amt direction category account descr tags date tid freshId now = .saved db' →
        ∃ t : Txn, db' = upsert db t ∧ t.direction = orDefault direction "expense" ∧
          t.amount = formAmountValue amt) := by
  refine ⟨?_, ?_, ?_⟩
  · intro db row freshId now hdir hp hfresh
    have hinf : inferDir row = if 0 ≤ amountValue row.amount then "income" else "expense" := by
      simp [inferDir, orDefault, hdir]
    have hv : isValidDirection (inferDir row) = true := by
      rw [hinf]
      by_cases h0 : 0 ≤ amountValue row.amount <;> simp [h0, isValidDirection]
    refine ⟨?_, by simp [migrateTxn, hinf], rfl⟩
    unfold migrateRow
    simp [hp, hfresh, hv]
  · intro db amount direction category account descr tags date tid freshId now db' heq
    by_cases hd : isValidDirection direction = true
    · simp only [add_transaction_db, hd, if_true, Option.some.injEq] at heq
      exact ⟨_, heq.symm, rfl, rfl⟩
    · simp [add_transaction_db, hd] at heq
  · intro db amt direction category account descr tags date tid freshId now db' heq
    cases amt with
    | invalid => simp [web_add] at heq
    | missing =>
        by_cases hd : isValidDirection (orDefault direction "expense") = true
        · simp only [web_add, hd, if_true, WebResult.saved.injEq] at heq
          exact ⟨_, heq.symm, rfl, rfl⟩
        · simp [web_add, hd] at heq
    | num q =>
        by_cases hd : isValidDirection (orDefault direction "expense") = true
        · simp only [web_add, hd, if_true, WebResult.saved.injEq] at heq
          exact ⟨_, heq.symm, rfl, rfl⟩
        · simp [web_add, hd] at heq

/-- C6 witness: a direction-less import row with raw amount `-7` is
stored as an expense with amount `-7`. -/
theorem sign_inference_only_in_import_witness :
    migrateRow [] ⟨"r1", "2026-01-02", .num (-7), "", "", "", "", ""⟩ "u" "n" =
      (migrateTxn ⟨"r1", "2026-01-02", .num (-7), "", "", "", "", ""⟩ "u" "n" :: [], 1) ∧
    (migrateTxn ⟨"r1", "2026-01-02", .num (-7), "", "", "", "", ""⟩ "u" "n").direction =
      (if 0 ≤ amountValue (.num (-7)) then "income" else "expense") ∧
    (migrateTxn ⟨"r1", "2026-01-02", .num (-7), "", "", "", "", ""⟩ "u" "n").amount =
      amountValue (.num (-7)) :=
  sign_inference_only_in_import.1 [] ⟨"r1", "2026-01-02", .num (-7), "", "", "", "", ""⟩
    "u" "n" rfl rfl rfl

/-! ## C7: the reported import count counts attempts, not inserts -/

theorem migrateLoop_count (rows : List CsvRow) (db : Store) (fresh : Nat → String)
    (now : String) (k : Nat) :
    (migrateLoop rows db fresh now k).2 = rows.countP (fun r => amountParses r.amount) := by
  induction rows generalizing db k with
  | nil => simp [migrateLoop]
  | cons row rest ih =>
      by_cases hp : amountParses row.amount = true <;>
        simp [migrateLoop, migrateRow, hp, ih, List.countP_cons, Nat.add_comm]

/-- C7: the count `migrate_from_csv` reports equals the number of source
rows whose amount parsed (rows attempted), regardless of whether the row
was inserted; concretely, a source whose one row collides with an
existing id reports count 1 while inserting nothing. -/
theorem migrate_count_attempted :
    (∀ (rows : List CsvRow) (db : Store) (fresh : Nat → String) (now : String),
        (migrate_from_csv rows db fresh now).2 =
          rows.countP (fun r => amountParses r.amount)) ∧
    migrate_from_csv [⟨"a", "2027-09-09", .num 999, "expense", "", "", "", ""⟩]
        [⟨"a", "2026-01-01", 7, "income", none, none, none, none⟩] (fun _ => "u") "n"
      = ([⟨"a", "2026-01-01", 7, "income", none, none, none, none⟩], 1) := by
  exact ⟨fun rows db fresh now => migrateLoop_count rows db fresh now 0, rfl⟩

/-! ## C8: monthly report filters by date prefix -/

/-- C8: for a month of the `YYYY-MM` shape (so the SQL `LIKE` pattern is
an exact prefix test and non-conforming dates are merely excluded),
`monthly_report` returns income/expense sums over the records whose date
starts with the month and net = income − expense; and on a record set
with no date matching `2099-01`, `monthly_report "2099-01"` is all
zeros. -/
theorem monthly_report_spec (db : Store) (month : String)
    (hvalid : ∀ r ∈ db, isValidDirection r.direction = true)
    (hmonth : isMonthStr month = true) :
    (monthly_report db month).1 =
      sumAmounts ((db.filter (dateMatches month)).filter (fun r => r.direction = "income")) ∧
    (monthly_report db month).2.1 =
      sumAmounts ((db.filter (dateMatches month)).filter (fun r => r.direction = "expense")) ∧
    (monthly_report db month).2.2 = (monthly_report db month).1 - (monthly_report db month).2.1 ∧
    ((∀ r ∈ db, dateMatches "2099-01" r = false) →
      monthly_report db "2099-01" = (0, 0, 0)) := by
  have hb := balanceFold_eq (db.filter (dateMatches month))
  refine ⟨?_, ?_, rfl, ?_⟩
  · show (balanceFold (db.filter (dateMatches month))).1 = _
    rw [hb]
  · have h2 : (monthly_report db month).2.1 =
        sumAmounts ((db.filter (dateMatches month)).filter (fun r => ¬ r.direction = "income")) := by
      show (balanceFold (db.filter (dateMatches month))).2 = _
      rw [hb]
    rw [h2, filter_not_income _ (fun r hr => hvalid r (List.mem_filter.mp hr).1)]
  · intro hno
    have hnil : db.filter (dateMatches "2099-01") = [] := by
      rw [List.filter_eq_nil_iff]
      intro r hr
      simp [hno r hr]
    unfold monthly_report
    rw [hnil]
    norm_num [balanceFold]

/-- C8 witness: the scenario record set for month `2026-01`, and the
`2099-01` boundary. -/
theorem monthly_report_spec_witness :
    (monthly_report
      [⟨"a", "2026-01-05", 100, "income", none, none, none, none⟩,
       ⟨"b", "2026-01-10", 40, "expense", none, none, none, none⟩,
       ⟨"c", "2026-02-01", 20, "expense", none, none, none, none⟩] "2099-01") = (0, 0, 0) :=
  (monthly_report_spec
    [⟨"a", "2026-01-05", 100, "income", none, none, none, none⟩,
     ⟨"b", "2026-01-10", 40, "expense", none, none, none, none⟩,
     ⟨"c", "2026-02-01", 20, "expense", none, none, none, none⟩] "2099-01"
    (by decide) (by decide)).2.2.2 (by decide)

/-! ## C9: an absent or empty amount cell does not skip the row -/

/-- C9: a CSV row whose amount cell is missing/empty is not skipped by
the parse guard: when its id is not already taken it is inserted with
amount `0`, with direction `"income"` if the direction field is also
absent (since `0 >= 0`), or the row's own direction when it is one of
the two valid values; either way the row counts as processed. -/
theorem import_empty_amount (db : Store) (row : CsvRow) (freshId now : String)
    (hamt : row.amount = .empty)
    (hfresh : lookupId db (orDefault row.id freshId) = none) :
    (row.direction = "" →
      migrateRow db row freshId now = (migrateTxn row freshId now :: db, 1) ∧
      (migrateTxn row freshId now).amount = 0 ∧
      (migrateTxn row freshId now).direction = "income") ∧
    (isValidDirection row.direction = true →
      migrateRow db row freshId now = (migrateTxn row freshId now :: db, 1) ∧
      (migrateTxn row freshId now).amount = 0) := by
  have hval : amountValue row.amount = 0 := by rw [hamt]; rfl
  have hp : amountParses row.amount = true := by rw [hamt]; rfl
  constructor
  · intro hdir
    have hinf : inferDir row = "income" := by
      simp [inferDir, orDefault, hdir, hval]
    refine ⟨?_, by simp [migrateTxn, hval], by simp [migrateTxn, hinf]⟩
    unfold migrateRow
    simp [hp, hfresh, hinf, isValidDirection]
  · intro hdir
    have hinf : inferDir row = row.direction := by
      have hne : row.direction ≠ "" := by
        intro h0
        rw [h0] at hdir
        exact absurd hdir (by decide)
      simp [inferDir, orDefault, hne]
    refine ⟨?_, by simp [migrateTxn, hval]⟩
    unfold migrateRow
    simp [hp, hfresh, hinf, hdir]

/-- C9 witness: a row with an empty amount and no direction is inserted
as `amount 0`, `direction income`. -/
theorem import_empty_amount_witness :
    migrateRow [] ⟨"r1", "2026-03-03", .empty, "", "", "", "", ""⟩ "u" "n" =
      (migrateTxn ⟨"r1", "2026-03-03", .empty, "", "", "", "", ""⟩ "u" "n" :: [], 1) ∧
    (migrateTxn ⟨"r1", "2026-03-03", .empty, "", "", "", "", ""⟩ "u" "n").amount = 0 ∧
    (migrateTxn ⟨"r1", "2026-03-03", .empty, "", "", "", "", ""⟩ "u" "n").direction = "income" :=
  (import_empty_amount [] ⟨"r1", "2026-03-03", .empty, "", "", "", "", ""⟩ "u" "n"
    rfl rfl).1 rfl

/-! ## C10: web add defaults a falsy direction to expense -/

/-- C10: a POST to the web `add` route with a parseable amount and an
absent or empty `direction` form field is saved, not rejected, and the
stored record's direction is `"expense"`. -/
theorem web_add_direction_defaults_expense (db : Store) (q : ℚ)
    (category account descr tags date tid freshId now : String) :
    web_add db (.num q) "" category account descr tags date tid freshId now =
      .saved (upsert db ⟨orDefault tid freshId, (if date = "" then now else date.trim), q,
        "expense", orNone category, orNone account, orNone descr, orNone tags⟩) :=
  rfl

/-! ## C5: export then re-import into an empty store -/

/-- The shape every record written by the three insert paths has: the
uuid/now defaults keep `id` and `date` non-empty, the `CHECK` constraint
keeps the direction valid, and `orNone` never stores `some ""` (empty
optional text becomes `NULL`).  Such records survive the empty-string
sentinels of the CSV form. -/
def storedNormal (r : Txn) : Prop :=
  r.id ≠ "" ∧ r.date ≠ "" ∧ isValidDirection r.direction = true ∧
  r.category ≠ some "" ∧ r.account ≠ some "" ∧ r.descr ≠ some "" ∧ r.tags ≠ some ""

instance (r : Txn) : Decidable (storedNormal r) := by
  unfold storedNormal
  infer_instance

theorem orNone_getD (o : Option String) (h : o ≠ some "") : orNone (o.getD "") = o := by
  cases o with
  | none => rfl
  | some s =>
      have hs : s ≠ "" := fun h0 => h (by rw [h0])
      simp [orNone, Option.getD, hs]

theorem migrateRow_exportRow (db : Store) (r : Txn) (freshId now : String)
    (hr : storedNormal r) (hfresh : lookupId db r.id = none) :
    migrateRow db (exportRow r) freshId now = (r :: db, 1) := by
  obtain ⟨hid, hdate, hdir, hcat, hacc, hdes, htag⟩ := hr
  have hne : r.direction ≠ "" := fun h0 => by rw [h0] at hdir; exact absurd hdir (by decide)
  have hinf : inferDir (exportRow r) = r.direction := by
    simp [inferDir, exportRow, orDefault, hne]
  have ht : migrateTxn (exportRow r) freshId now = r := by
    unfold migrateTxn
    rw [hinf]
    show (⟨orDefault r.id freshId, orDefault r.date now, r.amount, r.direction,
      orNone (r.category.getD ""), orNone (r.account.getD ""), orNone (r.descr.getD ""),
      orNone (r.tags.getD "")⟩ : Txn) = r
    rw [orNone_getD _ hcat, orNone_getD _ hacc, orNone_getD _ hdes, orNone_getD _ htag]
    simp [orDefault, hid, hdate]
  have hod : orDefault r.id freshId = r.id := by simp [orDefault, hid]
  have e1 : (exportRow r).id = r.id := rfl
  have e2 : amountParses (exportRow r).amount = true := rfl
  simp [migrateRow, e1, e2, hod, hfresh, hinf, hdir, ht]

theorem migrateLoop_export (l : List Txn) (db : Store)
    (fresh : Nat → String) (now : String) (k : Nat)
    (hl : ∀ r ∈ l, storedNormal r)
    (hnodup : (l.map Txn.id).Nodup)
    (hdisj : ∀ r ∈ l, lookupId db r.id = none) :
    (migrateLoop (l.map exportRow) db fresh now k).1 = l.reverse ++ db := by
  induction l generalizing db k with
  | nil => simp [migrateLoop]
  | cons r rest ih =>
      have hrow : migrateRow db (exportRow r) (fresh k) now = (r :: db, 1) :=
        migrateRow_exportRow db r (fresh k) now (hl r (by simp)) (hdisj r (by simp))
      have hhead : r.id ∉ rest.map Txn.id := (List.nodup_cons.mp hnodup).1
      have hstep : (migrateLoop (rest.map exportRow) (r :: db) fresh now (k + 1)).1 =
          rest.reverse ++ (r :: db) := by
        refine ih (r :: db) (k + 1) (fun r' hr' => hl r' (List.mem_cons_of_mem _ hr'))
          (List.nodup_cons.mp hnodup).2 ?_
        intro r' hr'
        rw [lookupId_cons]
        have hne : r.id ≠ r'.id := fun h0 =>
          hhead (h0 ▸ List.mem_map_of_mem Txn.id hr')
        rw [if_neg hne]
        exact hdisj r' (List.mem_cons_of_mem _ hr')
      simp only [List.map_cons, migrateLoop, hrow, hstep]
      simp

/-- C5 counterexample: a store holding a record with an empty `date`
string (reachable through the web `add` route, which strips a
whitespace-only date to `""`) is *not* reproduced by export +
re-import into an empty store: the importer's `date or now()` default
fires and replaces the empty date with the import timestamp. -/
theorem export_reimport_cex :
    migrate_from_csv (export_csv [⟨"a", "", 5, "income", none, none, none, none⟩]) []
        (fun _ => "u") "2026-02-02T00:00:00"
      = ([⟨"a", "2026-02-02T00:00:00", 5, "income", none, none, none, none⟩], 1) ∧
    ([(⟨"a", "2026-02-02T00:00:00", 5, "income", none, none, none, none⟩ : Txn)] : Store)
      ≠ [⟨"a", "", 5, "income", none, none, none, none⟩] := by
  exact ⟨rfl, by decide⟩

/-- C5 amended: for every store whose records are of the shape the
operations themselves produce (non-empty id and date, a valid direction,
no `some ""` optional — the empty-string sentinels of the CSV form) and
whose ids are unique (the primary key), exporting the full record set
and re-importing it into an empty store reproduces the record set
exactly: the result is a permutation of the original (same ids, same
field values). -/
theorem export_reimport_roundtrip (db : Store) (fresh : Nat → String) (now : String)
    (hn : ∀ r ∈ db, storedNormal r) (hnodup : (db.map Txn.id).Nodup) :
    List.Perm (migrate_from_csv (export_csv db) [] fresh now).1 db := by
  unfold migrate_from_csv export_csv
  have hperm : List.Perm (read_transactions_db db) db := List.perm_insertionSort _ _
  have hloop := migrateLoop_export (read_transactions_db db) [] fresh now 0
    (fun r hr => hn r (hperm.mem_iff.mp hr))
    (((hperm.map Txn.id).nodup_iff).mpr hnodup)
    (fun r _ => rfl)
  rw [hloop]
  simp only [List.append_nil]
  exact (List.reverse_perm _).trans hperm

/-- C5 amended, witness: a concrete two-record store round-trips. -/
theorem export_reimport_roundtrip_witness :
    List.Perm (migrate_from_csv (export_csv
        [⟨"a", "2026-01-05", 100, "income", some "Salary", none, none, none⟩,
         ⟨"b", "2026-01-10", 40, "expense", none, none, none, none⟩]) []
        (fun _ => "u") "n").1
      [⟨"a", "2026-01-05", 100, "income", some "Salary", none, none, none⟩,
       ⟨"b", "2026-01-10", 40, "expense", none, none, none, none⟩] :=
  export_reimport_roundtrip
    [⟨"a", "2026-01-05", 100, "income", some "Salary", none, none, none⟩,
     ⟨"b", "2026-01-10", 40, "expense", none, none, none, none⟩]
    (fun _ => "u") "n" (by decide) (by decide)
